import Mathlib

/-!
Shallow embedding of the npblink example data and model modules
(`examples/codon2x3/npdata.py`, `npmodel.py`, `npmodelb.py`).

Numeric values are embedded as rationals: every literal in the source
(0, 0.5, 1, 2, 4) and every quotient arising here is exactly
representable, so rational arithmetic agrees with the source's
floating-point arithmetic on all quantities the claims mention.
-/

namespace Npblink

/-- The six tree-graph node names `N0` .. `N5` used as dictionary keys
throughout the source. -/
inductive Node
  | N0 | N1 | N2 | N3 | N4 | N5
  deriving DecidableEq, BEq, Fintype, Repr

open Node

/-- Python exception outcomes relevant to `get_data`: an unbound-name
error, or an explicitly raised exception with a message. -/
inductive PyError
  | nameError (name : String)
  | exception (msg : String)
  deriving DecidableEq, Repr

/-- The pair returned by `get_data`: the per-node primary observation
dictionary, and the per-tolerance-class per-node tolerance observation
dictionary (class keys 0, 1, 2; other keys absent, modelled as `[]`). -/
structure ObsData where
  primary_data : Node → List Bool
  tol_data : Nat → Node → List Bool

/-- `npdata.py` lines 40-47: level-0 `primary_data` literal. -/
def primaryData0 : Node → List Bool
  | _ => [true, true, true, true, true, true]

/-- `npdata.py` lines 50-75: level-0 `tol_data` literal (all allowed). -/
def tolData0 : Nat → Node → List Bool
  | 0, _ => [true, true]
  | 1, _ => [true, true]
  | 2, _ => [true, true]
  | _, _ => []

/-- `npdata.py` lines 84-91: level-1 `primary_data` literal. -/
def primaryData1 : Node → List Bool
  | N0 => [true, false, false, false, false, false]
  | N1 => [true, true, true, true, true, true]
  | N2 => [true, true, true, true, true, true]
  | N3 => [false, false, false, false, true, false]
  | N4 => [false, false, false, false, false, true]
  | N5 => [false, true, false, false, false, false]

/-- `npdata.py` lines 97-122: level-1 `tol_data` literal. -/
def tolData1 : Nat → Node → List Bool
  | 0, N0 => [false, true]
  | 0, N5 => [false, true]
  | 0, _ => [true, true]
  | 1, _ => [true, true]
  | 2, N3 => [false, true]
  | 2, N4 => [false, true]
  | 2, _ => [true, true]
  | _, _ => []

/-- `npdata.py` lines 130-137: level-2 `primary_data` literal. -/
def primaryData2 : Node → List Bool
  | N0 => [true, false, false, false, false, false]
  | N1 => [true, true, true, true, true, true]
  | N2 => [true, true, true, true, true, true]
  | N3 => [false, false, false, false, true, false]
  | N4 => [false, false, false, false, false, true]
  | N5 => [false, true, false, false, false, false]

/-- `npdata.py` lines 138-163: level-2 `tol_data` literal. -/
def tolData2 : Nat → Node → List Bool
  | 0, N0 => [false, true]
  | 0, N5 => [false, true]
  | 0, _ => [true, true]
  | 1, N0 => [true, false]
  | 1, _ => [true, true]
  | 2, N0 => [false, true]
  | 2, N3 => [false, true]
  | 2, N4 => [false, true]
  | 2, _ => [true, true]
  | _, _ => []

/-- `npdata.py` lines 169-176: level-3 `primary_data` literal. -/
def primaryData3 : Node → List Bool
  | N0 => [true, false, false, false, false, false]
  | N1 => [true, true, true, true, true, true]
  | N2 => [true, true, true, true, true, true]
  | N3 => [false, false, false, false, true, false]
  | N4 => [false, false, false, false, false, true]
  | N5 => [false, true, false, false, false, false]

/-- `npdata.py` lines 177-202: level-3 `tol_data` literal. -/
def tolData3 : Nat → Node → List Bool
  | 0, N0 => [false, true]
  | 0, N3 => [false, true]
  | 0, N4 => [false, true]
  | 0, N5 => [false, true]
  | 0, _ => [true, true]
  | 1, N0 => [true, false]
  | 1, N3 => [false, true]
  | 1, N4 => [false, true]
  | 1, N5 => [false, true]
  | 1, _ => [true, true]
  | 2, N0 => [false, true]
  | 2, N3 => [false, true]
  | 2, N4 => [false, true]
  | 2, N5 => [false, true]
  | 2, _ => [true, true]
  | _, _ => []

/-- The four static `primary_data` dictionaries of `npdata.py`, indexed
by data level (levels outside 0-3 have no dictionary; modelled as `[]`). -/
def primaryData : Nat → Node → List Bool
  | 0 => primaryData0
  | 1 => primaryData1
  | 2 => primaryData2
  | 3 => primaryData3
  | _ => fun _ => []

/-- The four static `tol_data` dictionaries of `npdata.py`, indexed by
data level. -/
def tolData : Nat → Nat → Node → List Bool
  | 0 => tolData0
  | 1 => tolData1
  | 2 => tolData2
  | 3 => tolData3
  | _ => fun _ _ => []

/-- `npdata.get_data(level=0)`, `npdata.py` lines 19-206, embedded
faithfully: the branch conditions of the source read the free name
`data_level`, not the function's own `level` parameter, so the embedding
takes the global environment's binding of `data_level` as an explicit
`Option Int` argument (`none` means the name is unbound, which in Python
raises `NameError`; the module itself never defines `data_level`, so for
the module as shipped the environment argument is `none`).  The `else`
branch raises `Exception('invalid data level')`. -/
def get_data (level : Int) (data_level : Option Int) : Except PyError ObsData :=
  match data_level with
  | none => .error (.nameError "data_level")
  | some d =>
    if d = 0 then .ok ⟨primaryData0, tolData0⟩
    else if d = 1 then .ok ⟨primaryData1, tolData1⟩
    else if d = 2 then .ok ⟨primaryData2, tolData2⟩
    else if d = 3 then .ok ⟨primaryData3, tolData3⟩
    else .error (.exception "invalid data level")

/-- Modelled from the spec: `npmctree.util.normalized`, an external
dependency imported by both model modules and not part of this
repository.  Per the spec it "normalizes an internal non-negative weight
vector to sum to 1", i.e. divides elementwise by the sum. -/
def normalized (ws : List ℚ) : List ℚ :=
  ws.map (fun w => w / ws.sum)

/-- Entry `(i, j)` of a matrix given as a list of rows. -/
def Qentry (Q : List (List ℚ)) (i j : Nat) : ℚ :=
  (Q.getD i []).getD j 0

namespace npmodel

/-- `npmodel.py` lines 20-21. -/
def get_rate_on : ℚ := 1.0

/-- `npmodel.py` lines 24-25. -/
def get_rate_off : ℚ := 1.0

/-- `npmodel.py` lines 28-30: normalized vector of six ones. -/
def get_primary_distn : List ℚ :=
  normalized [1, 1, 1, 1, 1, 1]

/-- `npmodel.py` lines 33-34. -/
def get_blink_distn : List ℚ :=
  normalized [get_rate_off, get_rate_on]

/-- `npmodel.py` lines 37-50: the symmetric unnormalized rate matrix. -/
def get_Q_primary : List (List ℚ) :=
  [[0, 1, 1, 0, 0, 0],
   [1, 0, 0, 1, 0, 0],
   [1, 0, 0, 1, 1, 0],
   [0, 1, 1, 0, 0, 1],
   [0, 0, 1, 0, 0, 1],
   [0, 0, 0, 1, 1, 0]]

/-- `npmodel.py` lines 53-60. -/
def get_primary_to_tol : List ℕ := [0, 0, 1, 1, 2, 2]

/-- `npmodel.py` lines 63-73: edge list of the rooted tree and the root. -/
def get_T_and_root : List (Node × Node) × Node :=
  ([(N1, N0), (N1, N2), (N1, N5), (N2, N3), (N2, N4)], N1)

/-- `npmodel.py` lines 76-84: branch-length dictionary as an association
list in source order. -/
def get_edge_to_blen : List ((Node × Node) × ℚ) :=
  [((N1, N0), 0.5),
   ((N1, N2), 0.5),
   ((N1, N5), 0.5),
   ((N2, N3), 0.5),
   ((N2, N4), 0.5)]

end npmodel

namespace npmodelb

/-- `npmodelb.py` lines 38-39. -/
def get_rate_on : ℚ := 2.0

/-- `npmodelb.py` lines 42-43. -/
def get_rate_off : ℚ := 0.5

/-- `npmodelb.py` lines 46-48. -/
def get_primary_distn : List ℚ :=
  normalized [1, 4, 1, 1, 1, 1]

/-- `npmodelb.py` lines 51-52. -/
def get_blink_distn : List ℚ :=
  normalized [get_rate_off, get_rate_on]

/-- `npmodelb.py` line 65: the fast rate. -/
def f : ℚ := 2.0

/-- `npmodelb.py` line 66: the slow rate. -/
def s : ℚ := 0.5

/-- `npmodelb.py` lines 55-75: the asymmetric unnormalized rate matrix. -/
def get_Q_primary : List (List ℚ) :=
  [[0, f, 1, 0, 0, 0],
   [s, 0, 0, 1, 0, 0],
   [s, 0, 0, 1, 1, 0],
   [0, f, 1, 0, 0, 1],
   [0, 0, 1, 0, 0, 0],
   [0, 0, 0, 1, 0, 0]]

/-- `npmodelb.py` lines 78-85. -/
def get_primary_to_tol : List ℕ := [0, 0, 1, 1, 2, 2]

/-- `npmodelb.py` lines 88-98: same topology and root as model A. -/
def get_T_and_root : List (Node × Node) × Node :=
  ([(N1, N0), (N1, N2), (N1, N5), (N2, N3), (N2, N4)], N1)

/-- `npmodelb.py` line 110: the base branch length. -/
def blen : ℚ := 0.5

/-- `npmodelb.py` lines 101-118: branch-length dictionary as an
association list in source order. -/
def get_edge_to_blen : List ((Node × Node) × ℚ) :=
  [((N1, N0), 0),
   ((N1, N2), 0),
   ((N1, N5), blen),
   ((N2, N3), 2.0 * blen),
   ((N2, N4), 0.5 * blen)]

end npmodelb

/-- Number of edges of `es` pointing into `v`. -/
def inDegree (es : List (Node × Node)) (v : Node) : Nat :=
  (es.filter (fun e => e.2 == v)).length

/-- `reachableWithin es n a b` holds when some directed path along `es`
of length between 1 and `n` leads from `a` to `b`. -/
def reachableWithin (es : List (Node × Node)) : Nat → Node → Node → Bool
  | 0, _, _ => false
  | n + 1, a, b =>
    ((es.filter (fun e => e.1 == a)).map (·.2)).any
      (fun c => c == b || reachableWithin es n c b)

/-- C1: the claim says `get_data(level)` returns the level's observation
pair for `level` in {0,1,2,3} and fails with an invalid-level condition
otherwise; the code instead branches on the unbound free name
`data_level`, so with the module as shipped (environment `none`) even the
valid argument 2 produces a `NameError` rather than the level-2 data. -/
theorem get_data_nameError_at_valid_level :
    get_data 2 none = Except.error (PyError.nameError "data_level") := rfl

/-- C2: filtration monotonicity of the four static observation datasets:
for every level L in {0,1,2}, node, tolerance class, and state index,
the allowed-flag at level L+1 is at most the allowed-flag at level L
(once a state is disallowed it stays disallowed), for both
`primary_data` and `tol_data`. -/
theorem filtration_monotone :
    ∀ L : Fin 3, ∀ v : Node, ∀ i : Fin 6, ∀ c : Fin 3, ∀ j : Fin 2,
      (primaryData (L.val + 1) v).getD i.val false ≤
        (primaryData L.val v).getD i.val false ∧
      (tolData (L.val + 1) c.val v).getD j.val false ≤
        (tolData L.val c.val v).getD j.val false := by decide

/-- C3: concrete level-1 and level-3 observation values: at level 1,
`primary_data['N0']` is `[True, False, False, False, False, False]` and
`tol_data[0]['N0']` is `[False, True]`; at node N3, class 0, level 1
gives `[True, True]` while level 3 gives `[False, True]`. -/
theorem level1_level3_concrete_values :
    primaryData 1 N0 = [true, false, false, false, false, false] ∧
    tolData 1 0 N0 = [false, true] ∧
    tolData 1 0 N3 = [true, true] ∧
    tolData 3 0 N3 = [false, true] := by decide

/-- C4: for both model variants the 6 by 6 matrix `get_Q_primary()` has
every diagonal entry equal to zero and every off-diagonal entry
non-negative (every entry is non-negative, and the diagonal ones are
exactly zero). -/
theorem Q_primary_sign_structure :
    (∀ i : Fin 6, Qentry npmodel.get_Q_primary i.val i.val = 0) ∧
    (∀ i j : Fin 6, 0 ≤ Qentry npmodel.get_Q_primary i.val j.val) ∧
    (∀ i : Fin 6, Qentry npmodelb.get_Q_primary i.val i.val = 0) ∧
    (∀ i j : Fin 6, 0 ≤ Qentry npmodelb.get_Q_primary i.val j.val) := by
  refine ⟨fun i => ?_, fun i j => ?_, fun i => ?_, fun i j => ?_⟩
  · fin_cases i <;> norm_num [Qentry, npmodel.get_Q_primary]
  · fin_cases i <;> fin_cases j <;> norm_num [Qentry, npmodel.get_Q_primary]
  · fin_cases i <;>
      norm_num [Qentry, npmodelb.get_Q_primary, npmodelb.f, npmodelb.s]
  · fin_cases i <;> fin_cases j <;>
      norm_num [Qentry, npmodelb.get_Q_primary, npmodelb.f, npmodelb.s]

/-- C5: `get_blink_distn()` is `(rate_off, rate_on)` normalized to sum
to one; model B has `rate_on = 2.0`, `rate_off = 0.5` and blink
distribution `[0.2, 0.8]`; model A has both rates 1.0 and blink
distribution `[0.5, 0.5]`; both distributions sum to 1. -/
theorem blink_distn_values :
    npmodel.get_blink_distn =
      normalized [npmodel.get_rate_off, npmodel.get_rate_on] ∧
    npmodelb.get_blink_distn =
      normalized [npmodelb.get_rate_off, npmodelb.get_rate_on] ∧
    npmodel.get_rate_on = 1.0 ∧ npmodel.get_rate_off = 1.0 ∧
    npmodelb.get_rate_on = 2.0 ∧ npmodelb.get_rate_off = 0.5 ∧
    npmodel.get_blink_distn = [0.5, 0.5] ∧
    npmodelb.get_blink_distn = [0.2, 0.8] ∧
    npmodel.get_blink_distn.sum = 1 ∧
    npmodelb.get_blink_distn.sum = 1 := by
  norm_num [npmodel.get_blink_distn, npmodelb.get_blink_distn, normalized,
    npmodel.get_rate_on, npmodel.get_rate_off,
    npmodelb.get_rate_on, npmodelb.get_rate_off]

/-- C6: for both model variants the edge list of `get_T_and_root()` is a
rooted out-tree on the six nodes: the returned root N1 has in-degree
zero, every other node has in-degree exactly one, and no node reaches
itself along a non-empty directed path (no cycles). -/
theorem T_and_root_is_rooted_out_tree :
    (∀ v : Node,
      inDegree npmodel.get_T_and_root.1 v =
        if v = npmodel.get_T_and_root.2 then 0 else 1) ∧
    (∀ v : Node, reachableWithin npmodel.get_T_and_root.1 6 v v = false) ∧
    (∀ v : Node,
      inDegree npmodelb.get_T_and_root.1 v =
        if v = npmodelb.get_T_and_root.2 then 0 else 1) ∧
    (∀ v : Node, reachableWithin npmodelb.get_T_and_root.1 6 v v = false) := by
  decide

/-- C7: for both model variants the key list of `get_edge_to_blen()` has
no duplicates and contains exactly the edges of `get_T_and_root()`, and
every branch-length value is non-negative. -/
theorem edge_to_blen_matches_topology :
    (npmodel.get_edge_to_blen.map Prod.fst).Nodup ∧
    (∀ e : Node × Node,
      e ∈ npmodel.get_edge_to_blen.map Prod.fst ↔
        e ∈ npmodel.get_T_and_root.1) ∧
    npmodel.get_edge_to_blen.all (fun p => decide (0 ≤ p.2)) = true ∧
    (npmodelb.get_edge_to_blen.map Prod.fst).Nodup ∧
    (∀ e : Node × Node,
      e ∈ npmodelb.get_edge_to_blen.map Prod.fst ↔
        e ∈ npmodelb.get_T_and_root.1) ∧
    npmodelb.get_edge_to_blen.all (fun p => decide (0 ≤ p.2)) = true := by
  refine ⟨?_, ?_, ?_, ?_, ?_, ?_⟩
  · simp [npmodel.get_edge_to_blen]
  · intro e
    simp [npmodel.get_edge_to_blen, npmodel.get_T_and_root]
  · norm_num [npmodel.get_edge_to_blen]
  · simp [npmodelb.get_edge_to_blen]
  · intro e
    simp [npmodelb.get_edge_to_blen, npmodelb.get_T_and_root]
  · norm_num [npmodelb.get_edge_to_blen, npmodelb.blen]

/-- C8: at every level in {0,1,2,3} and every node, the `primary_data`
vector has at least one `true` entry, and for every tolerance class in
{0,1,2} the `tol_data` vector has at least one `true` entry. -/
theorem observation_vectors_nonempty :
    ∀ L : Fin 4, ∀ v : Node,
      (primaryData L.val v).any id = true ∧
      ∀ c : Fin 3, (tolData L.val c.val v).any id = true := by decide

/-- C9: `get_data` branches on the global name `data_level`, never on
its `level` parameter, so for any two argument values and any fixed
environment the observable outcome (returned pair or raised error) is
identical. -/
theorem get_data_independent_of_argument :
    ∀ a b : Int, ∀ env : Option Int, get_data a env = get_data b env :=
  fun _ _ _ => rfl

/-- C10: the `primary_data` dictionaries of levels 1, 2 and 3 are
pairwise identical at every node, while the `tol_data` dictionaries of
levels 2 and 3 do differ from level 1 (so those levels differ from
level 1 only in `tol_data`). -/
theorem primary_data_levels_identical :
    (∀ v : Node,
      primaryData 1 v = primaryData 2 v ∧ primaryData 1 v = primaryData 3 v) ∧
    tolData 2 1 N0 ≠ tolData 1 1 N0 ∧
    tolData 3 0 N3 ≠ tolData 1 0 N3 := by decide

end Npblink
